import Mathlib

/-! The startup path of weChatRobot-go.

A shallow embedding of `main.go` (`runApp`, `getConfig`, `setupRouter`) and of
`config/yml_config_provider.go` (`RetrieveConfig`).

Go strings are embedded as Lean `String`s.  The only byte-level inspection the
program performs is the search for `'.'` and `'/'` (both ASCII), so working on
characters instead of bytes does not change any result on UTF-8 text.

Everything the process exchanges with the outside (environment variables, the
file system, the YAML loader, the address validator) is collected in `World`.
Calls that construct or start something are recorded, in order, in a log of
`Event`s, so that "X is never called" is a statement about that log.
-/

namespace WeChatRobot

/-! ## Data model -/

/-- Modelled from the spec: the declaration of `model.Config` is not in the
sources at hand.  `AppConfig` holds the two fields `main.go` reads from it,
`config.AppConfig.Port` (a Go `int`) and `config.AppConfig.Mode`. -/
structure AppConfig where
  port : Int
  mode : String
deriving DecidableEq, Repr

/-- Modelled from the spec: the WeChat credentials of the settings object
(token, app ID, app secret); `main.go` only passes them on. -/
structure WechatConfig where
  token : String
  appID : String
  appSecret : String
deriving DecidableEq, Repr

/-- Modelled from the spec: `model.Config`, application settings plus WeChat
credentials. -/
structure Config where
  appConfig : AppConfig
  wechatConfig : WechatConfig
deriving DecidableEq, Repr

/-- The value Go gives a `Config` that nothing was written into. -/
def Config.zero : Config := ⟨⟨0, ""⟩, ⟨"", "", ""⟩⟩

/-- The key/value store of a koanf instance (flattened keys). -/
abbrev Koanf := List (String × String)

/-- The LLM client as `chatgpt.NewChatGPT` receives it. -/
structure ChatGPT where
  apiKey : String
  baseDomain : String
  proxy : String
deriving DecidableEq, Repr

/-- The rule-based client as `tuling.NewTuling` receives it. -/
structure Tuling where
  apiKey : String
deriving DecidableEq, Repr

/-- The controller as `controller.NewMessageController` receives it; a Go nil
pointer is `none`. -/
structure MessageController where
  wechatConfig : WechatConfig
  chatGPT : Option ChatGPT
  tuling : Option Tuling
deriving DecidableEq, Repr

/-- The handlers `setupRouter` binds. -/
inductive Handler where
  | indexHandler
  | staticFS (root : String)
  | receiveMessage (ws : MessageController)
deriving DecidableEq, Repr

/-- One entry of the route table. -/
structure Route where
  method : String
  path : String
  handler : Handler
deriving DecidableEq, Repr

/-- The part of `gin.Engine` that `setupRouter` writes. -/
structure Engine where
  mode : String
  templates : Option String
  routes : List Route
deriving DecidableEq, Repr

/-- The fields of `http.Server` that `runApp` sets. -/
structure Server where
  addr : String
  handler : Engine
deriving DecidableEq, Repr

/-- Calls that construct or start a component, in program order. -/
inductive Event where
  | retrieveConfig (filePath : String)
  | initKeywordMap
  | newChatGPT (apiKey baseDomain proxy : String)
  | newTuling (apiKey : String)
  | newMessageController (wc : WechatConfig) (chatGPT : Option ChatGPT) (tl : Option Tuling)
  | newServer (addr : String)
  | listenAndServe (addr : String)
deriving DecidableEq, Repr

/-- Everything the process reads from outside.
* `getenv` is `os.Getenv` (an unset variable reads as `""`);
* `validateAddress` is `util.ValidateAddress`, whose body is not in the sources at hand;
* `abs` is `filepath.Abs`;
* `load p` is the outcome of `k.Load(file.Provider(p), yaml.Parser())` on a
  fresh koanf instance: the parsed keys, or the error of a missing, unreadable
  or malformed file;
* `unmarshal k` is the outcome of `k.Unmarshal("", &config)`. -/
structure World where
  getenv : String → String
  validateAddress : String → Bool
  abs : String → Except String String
  load : String → Except String Koanf
  unmarshal : Koanf → Except String Config

/-! ## Processes: a log of events, ended by a value or by a fatal exit -/

/-- Outcome of a piece of startup code: it either finishes with a value, or the
process is ended with the given message, by `logger.Fatalf` or by a panic that
nothing recovers.  Both carry the events recorded so far. -/
inductive Proc (α : Type) where
  | done (log : List Event) (a : α)
  | fatal (log : List Event) (msg : String)
deriving DecidableEq, Repr

/-- Sequencing: a fatal exit stops everything after it. -/
def Proc.bind {α β : Type} (x : Proc α) (f : α → Proc β) : Proc β :=
  match x with
  | .fatal log msg => .fatal log msg
  | .done log a =>
    match f a with
    | .done log2 b => .done (log ++ log2) b
    | .fatal log2 msg => .fatal (log ++ log2) msg

instance : Monad Proc where
  pure a := .done [] a
  bind := Proc.bind

/-- Record one event. -/
def emit (e : Event) : Proc Unit := .done [e] ()

/-- Modelled from the spec: `logger.Fatalf` is not in the sources at hand; the
spec has every fatal error logged and the process ended with a non-zero exit.
The formatted message is kept. -/
def Fatalf {α : Type} (msg : String) : Proc α := .fatal [] msg

/-- Go's `panic`; nothing in `main.go` recovers from it, so it ends the
process.  The panic value is kept as the message. -/
def Panic {α : Type} (msg : String) : Proc α := .fatal [] msg

/-- The events recorded by a process. -/
def Proc.log {α : Type} : Proc α → List Event
  | .done log _ => log
  | .fatal log _ => log

/-! ## `config/yml_config_provider.go` -/

/-- Result of `koanf.New`: an empty store. -/
def koanfNew : Koanf := []

/-- Effect of `k.Load` on the store `k`: on success the parsed keys are merged
in and the error is nil, on failure the store is untouched and the error is
returned. -/
def koanfLoad (k : Koanf) (parsed : Except String Koanf) : Koanf × Option String :=
  match parsed with
  | .ok kv => (k ++ kv, none)
  | .error err => (k, some err)

/-- The method `(*ymlConfigProvider).RetrieveConfig`, with `filePath` the field
set by `NewFile`. -/
def RetrieveConfig (w : World) (filePath : String) : Except String Config :=
  if filePath = "" then
    .error "config file not specified"
  else
    match w.abs filePath with
    | .error err => .error err
    | .ok absolutePath =>
      let k := koanfNew
      -- `_ = k.Load(file.Provider(absolutePath), yaml.Parser())`
      let (k, _) := koanfLoad k (w.load absolutePath)
      match w.unmarshal k with
      | .error err => .error err
      | .ok config => .ok config

/-! ## `main.go`: `getConfig` -/

/-- The loop of Go's `path.Ext`, walking the path from its last character:
`rev` is the part not yet visited (reversed), `acc` the part already visited. -/
def extLoop : List Char → List Char → List Char
  | [], _ => []
  | c :: rev, acc =>
    if c = '/' then []
    else if c = '.' then c :: acc
    else extLoop rev (c :: acc)

/-- Go's `path.Ext`: the suffix beginning at the final dot of the final
slash-separated element, or the empty string if there is no dot. -/
def pathExt (path : String) : String := ⟨extLoop path.data.reverse []⟩

/-- The function `getConfig` of `main.go`. -/
def getConfig (w : World) (configFile : String) : Proc (Except String Config) :=
  if configFile = "" then
    pure (.error "[ERROR] config file not specified")
  else
    let fileExt := pathExt configFile
    if fileExt = ".yml" ∨ fileExt = ".yaml" then do
      emit (.retrieveConfig configFile)
      pure (RetrieveConfig w configFile)
    else
      pure (.error "[ERROR] config file only support .yml or .yaml format")

/-! ## The parts of `path` and of gin's route registration that `setupRouter` uses -/

/-- The slash-separated elements of a path. -/
def splitSlash : List Char → List (List Char)
  | [] => [[]]
  | c :: cs =>
    match splitSlash cs with
    | [] => [[]]
    | seg :: segs => if c = '/' then [] :: seg :: segs else (c :: seg) :: segs

/-- The element-wise pass of Go's `path.Clean`: empty and `.` elements are
dropped, `..` removes the element before it (at the root it is dropped, in a
relative path with nothing before it it is kept).  `out` is the output so far,
last element first. -/
def cleanLoop (rooted : Bool) : List (List Char) → List (List Char) → List (List Char)
  | [], out => out.reverse
  | seg :: segs, out =>
    if seg = [] ∨ seg = ['.'] then cleanLoop rooted segs out
    else if seg = ['.', '.'] then
      match out with
      | top :: rest =>
        if top = ['.', '.'] then cleanLoop rooted segs (seg :: out)
        else cleanLoop rooted segs rest
      | [] => if rooted then cleanLoop rooted segs [] else cleanLoop rooted segs [seg]
    else cleanLoop rooted segs (seg :: out)

/-- Go's `path.Clean`. -/
def pathClean (p : String) : String :=
  if p = "" then "."
  else
    let rooted : Bool := p.data.head? = some '/'
    let body := String.intercalate "/" ((cleanLoop rooted (splitSlash p.data) []).map String.mk)
    if rooted then "/" ++ body
    else if body = "" then "."
    else body

/-- Go's `path.Join`: leading empty elements are ignored, the rest is joined
with slashes and cleaned; no non-empty element gives the empty string. -/
def pathJoin (elem : List String) : String :=
  match elem.dropWhile (fun e => e = "") with
  | [] => ""
  | es => pathClean (String.intercalate "/" es)

/-- The function `joinPaths` of gin, by which a group computes absolute paths. -/
def joinPaths (absolutePath relativePath : String) : String :=
  if relativePath = "" then absolutePath
  else
    let finalPath := pathJoin [absolutePath, relativePath]
    if relativePath.data.getLast? = some '/' ∧ finalPath.data.getLast? ≠ some '/' then
      finalPath ++ "/"
    else finalPath

/-- A `gin.RouterGroup`: only its base path matters here. -/
structure RouterGroup where
  basePath : String
deriving DecidableEq, Repr

/-- The modes `gin.SetMode` knows: the empty string, which stands for the
default mode, and `debug`, `release` and `test`. -/
def ginModeKnown (value : String) : Bool :=
  value == "" || value == "debug" || value == "release" || value == "test"

/-- The function `gin.SetMode`: it panics on a mode it does not know. -/
def ginSetMode (value : String) : Proc Unit :=
  if ginModeKnown value then pure ()
  else Panic ("gin mode unknown: " ++ value ++ " (available mode: debug release test)")

/-- The engine and root group of `gin.Default()`, created under the mode that
`gin.SetMode` has just accepted. -/
def ginDefault (mode : String) : Engine × RouterGroup := (⟨mode, none, []⟩, ⟨"/"⟩)

/-- The method `SetHTMLTemplate`, for the templates matching `pattern`.  The
templates are embedded when the program is built and are taken to parse. -/
def Engine.setHTMLTemplate (e : Engine) (pattern : String) : Engine :=
  { e with templates := some pattern }

/-- The method `RouterGroup.Group`. -/
def RouterGroup.group (g : RouterGroup) (relativePath : String) : RouterGroup :=
  ⟨joinPaths g.basePath relativePath⟩

/-- The method `RouterGroup.handle`: adds the route at the absolute path. -/
def RouterGroup.handle (g : RouterGroup) (method relativePath : String) (h : Handler)
    (e : Engine) : Engine :=
  { e with routes := e.routes ++ [⟨method, joinPaths g.basePath relativePath, h⟩] }

/-- The method `RouterGroup.GET`. -/
def RouterGroup.GET (g : RouterGroup) (relativePath : String) (h : Handler) (e : Engine) :
    Engine :=
  g.handle "GET" relativePath h e

/-- The method `RouterGroup.POST`. -/
def RouterGroup.POST (g : RouterGroup) (relativePath : String) (h : Handler) (e : Engine) :
    Engine :=
  g.handle "POST" relativePath h e

/-- The method `RouterGroup.StaticFS`: the file handler is registered for GET
and HEAD on every path below `relativePath`. -/
def RouterGroup.StaticFS (g : RouterGroup) (relativePath : String) (e : Engine) : Engine :=
  let urlPattern := pathJoin [relativePath, "/*filepath"]
  let e := g.handle "GET" urlPattern (.staticFS relativePath) e
  g.handle "HEAD" urlPattern (.staticFS relativePath) e

/-! ## `main.go`: `setupRouter` and `runApp` -/

/-- The function `setupRouter` of `main.go`. -/
def setupRouter (w : World) (config : Config) : Proc Engine := do
  ginSetMode config.appConfig.mode
  let (router, root) := ginDefault config.appConfig.mode
  let router := router.setHTMLTemplate "templates/*.html"
  let router := root.StaticFS "/public" router
  let router := root.GET "/" .indexHandler router
  let openaiApiKey := w.getenv "OPENAI_API_KEY"
  let mut chatGPT : Option ChatGPT := none
  if openaiApiKey ≠ "" then
    let openaiBaseDomain := w.getenv "OPENAI_BASE_DOMAIN"
    if openaiBaseDomain ≠ "" ∧ ¬ w.validateAddress openaiBaseDomain then
      Fatalf ("OPENAI_BASE_DOMAIN is not valid:" ++ openaiBaseDomain)
    let openaiProxy := w.getenv "OPENAI_PROXY"
    if openaiProxy ≠ "" ∧ ¬ w.validateAddress openaiProxy then
      Fatalf ("OPENAI_PROXY is not valid:" ++ openaiBaseDomain)
    emit (.newChatGPT openaiApiKey openaiBaseDomain openaiProxy)
    chatGPT := some ⟨openaiApiKey, openaiBaseDomain, openaiProxy⟩
  let mut tl : Option Tuling := none
  let tulingApiKey := w.getenv "TULING_API_KEY"
  if tulingApiKey ≠ "" then
    emit (.newTuling tulingApiKey)
    tl := some ⟨tulingApiKey⟩
  emit (.newMessageController config.wechatConfig chatGPT tl)
  let ws : MessageController := ⟨config.wechatConfig, chatGPT, tl⟩
  let weChatGroup := root.group "weChat"
  let router := weChatGroup.GET "/receiveMessage" (.receiveMessage ws) router
  let router := weChatGroup.POST "/receiveMessage" (.receiveMessage ws) router
  return router

/-- How the startup part of `runApp` ends when the process is not ended by a
fatal log call: `runApp` has returned an error, or the server has been handed
to the listening goroutine and `runApp` waits for the interrupt signal. -/
inductive Startup where
  | returned (err : String)
  | serving (srv : Server)
deriving DecidableEq, Repr

/-- The function `runApp` of `main.go`, from its entry to the start of the
listening goroutine.  The wait for the interrupt signal and the shutdown that
follow are not part of the embedding. -/
def runApp (w : World) (configFile : String) : Proc Startup := do
  match ← getConfig w configFile with
  | .error err => return .returned err
  | .ok config =>
    emit .initKeywordMap
    let router ← setupRouter w config
    -- `fmt.Sprintf(":%d", config.AppConfig.Port)`
    let srv : Server := ⟨":" ++ toString config.appConfig.port, router⟩
    emit (.newServer srv.addr)
    emit (.listenAndServe srv.addr)
    return .serving srv


/-! ## Concrete worlds, used to evaluate the embedding -/

/-- A sample address check: an address is accepted when it contains a colon. -/
def sampleValidate (addr : String) : Bool := addr.data.contains ':'

/-- The settings held by the sample configuration file. -/
def sampleConfig : Config := ⟨⟨8080, "release"⟩, ⟨"token", "wx0001", "secret"⟩⟩

/-- A world whose only file is `/srv/config.yml`, holding `sampleConfig`, and
whose environment is the given list of variables.  Unmarshalling an empty
store leaves the settings at their zero value, as koanf does. -/
def sampleWorld (env : List (String × String)) : World :=
  ⟨fun name => (env.lookup name).getD "",
   sampleValidate,
   fun p => .ok ("/srv/" ++ p),
   fun p =>
    if p = "/srv/config.yml" then .ok [("app::port", "8080"), ("app::mode", "release")]
    else .error ("open " ++ p ++ ": no such file or directory"),
   fun k => if k = [] then .ok Config.zero else .ok sampleConfig⟩

/-! ## Closed forms used in the proofs -/

/-- The LLM client held after the OpenAI block of `setupRouter`, if the block
does not end the process. -/
def llmOf (w : World) : Option ChatGPT :=
  if w.getenv "OPENAI_API_KEY" = "" then none
  else some ⟨w.getenv "OPENAI_API_KEY", w.getenv "OPENAI_BASE_DOMAIN", w.getenv "OPENAI_PROXY"⟩

/-- The rule-based client held after the Tuling block of `setupRouter`. -/
def tulingOf (w : World) : Option Tuling :=
  if w.getenv "TULING_API_KEY" = "" then none else some ⟨w.getenv "TULING_API_KEY"⟩

/-- The variable `name` holds a non-empty value that the address check rejects. -/
def rejected (w : World) (name : String) : Prop :=
  w.getenv name ≠ "" ∧ w.validateAddress (w.getenv name) = false

instance (w : World) (name : String) : Decidable (rejected w name) := by
  unfold rejected; infer_instance

/-- The events of a run of `setupRouter` that is not ended by a fatal log call. -/
def setupLog (w : World) (config : Config) : List Event :=
  (if w.getenv "OPENAI_API_KEY" = "" then []
   else [.newChatGPT (w.getenv "OPENAI_API_KEY") (w.getenv "OPENAI_BASE_DOMAIN")
          (w.getenv "OPENAI_PROXY")]) ++
  (if w.getenv "TULING_API_KEY" = "" then [] else [.newTuling (w.getenv "TULING_API_KEY")]) ++
  [.newMessageController config.wechatConfig (llmOf w) (tulingOf w)]

/-- The route table of a run of `setupRouter` that builds the controller `ws`. -/
def routeTable (ws : MessageController) : List Route :=
  [⟨"GET", "/public/*filepath", .staticFS "/public"⟩,
   ⟨"HEAD", "/public/*filepath", .staticFS "/public"⟩,
   ⟨"GET", "/", .indexHandler⟩,
   ⟨"GET", "/weChat/receiveMessage", .receiveMessage ws⟩,
   ⟨"POST", "/weChat/receiveMessage", .receiveMessage ws⟩]

/-- One step of the decimal parse of `String.toNat?`. -/
def digitStep (n : Nat) (c : Char) : Nat := n * 10 + (c.toNat - '0'.toNat)

/-! ## Lemmas on the route registration -/

/-- The base path of the group `weChat` under the root group. -/
theorem joinPaths_group : joinPaths "/" "weChat" = "/weChat" := by decide

/-- The absolute path of `/receiveMessage` in the group `weChat`. -/
theorem joinPaths_receive :
    joinPaths "/weChat" "/receiveMessage" = "/weChat/receiveMessage" := by decide

/-- The absolute path of `/` in the root group. -/
theorem joinPaths_index : joinPaths "/" "/" = "/" := by decide

/-- The absolute path of the static file pattern in the root group. -/
theorem joinPaths_static :
    joinPaths "/" (pathJoin ["/public", "/*filepath"]) = "/public/*filepath" := by decide

/-- Closed form of `setupRouter`. -/
theorem setupRouter_eq (w : World) (config : Config) :
    setupRouter w config =
      if ginModeKnown config.appConfig.mode = false then
        .fatal []
          ("gin mode unknown: " ++ config.appConfig.mode ++
            " (available mode: debug release test)")
      else if w.getenv "OPENAI_API_KEY" ≠ "" ∧ rejected w "OPENAI_BASE_DOMAIN" then
        .fatal [] ("OPENAI_BASE_DOMAIN is not valid:" ++ w.getenv "OPENAI_BASE_DOMAIN")
      else if w.getenv "OPENAI_API_KEY" ≠ "" ∧ rejected w "OPENAI_PROXY" then
        .fatal [] ("OPENAI_PROXY is not valid:" ++ w.getenv "OPENAI_BASE_DOMAIN")
      else
        .done (setupLog w config)
          ⟨config.appConfig.mode, some "templates/*.html",
            routeTable ⟨config.wechatConfig, llmOf w, tulingOf w⟩⟩ := by
  cases hm : ginModeKnown config.appConfig.mode <;>
  by_cases hk : w.getenv "OPENAI_API_KEY" = "" <;>
  by_cases ht : w.getenv "TULING_API_KEY" = "" <;>
  by_cases hb : w.getenv "OPENAI_BASE_DOMAIN" = "" <;>
  by_cases hvb : w.validateAddress (w.getenv "OPENAI_BASE_DOMAIN") = true <;>
  by_cases hp : w.getenv "OPENAI_PROXY" = "" <;>
  by_cases hvp : w.validateAddress (w.getenv "OPENAI_PROXY") = true <;>
  simp [setupRouter, rejected, setupLog, routeTable, llmOf, tulingOf, hk, ht, hb, hvb, hp, hvp,
    hm, ginSetMode, Panic,
    bind, Proc.bind, pure, emit, Fatalf, ginDefault, Engine.setHTMLTemplate,
    RouterGroup.StaticFS, RouterGroup.GET, RouterGroup.POST, RouterGroup.handle,
    RouterGroup.group, joinPaths_group, joinPaths_receive, joinPaths_index, joinPaths_static]

/-- Closed form of `setupRouter` for a mode that gin knows. -/
theorem setupRouter_of_mode (w : World) (config : Config)
    (hmode : ginModeKnown config.appConfig.mode = true) :
    setupRouter w config =
      if w.getenv "OPENAI_API_KEY" ≠ "" ∧ rejected w "OPENAI_BASE_DOMAIN" then
        .fatal [] ("OPENAI_BASE_DOMAIN is not valid:" ++ w.getenv "OPENAI_BASE_DOMAIN")
      else if w.getenv "OPENAI_API_KEY" ≠ "" ∧ rejected w "OPENAI_PROXY" then
        .fatal [] ("OPENAI_PROXY is not valid:" ++ w.getenv "OPENAI_BASE_DOMAIN")
      else
        .done (setupLog w config)
          ⟨config.appConfig.mode, some "templates/*.html",
            routeTable ⟨config.wechatConfig, llmOf w, tulingOf w⟩⟩ := by
  rw [setupRouter_eq, if_neg (by simp [hmode])]

/-- For a mode that gin does not know, `setupRouter` is ended by the panic of
`gin.SetMode`, before anything is built. -/
theorem setupRouter_unknown_mode (w : World) (config : Config)
    (hmode : ginModeKnown config.appConfig.mode = false) :
    setupRouter w config =
      .fatal []
        ("gin mode unknown: " ++ config.appConfig.mode ++
          " (available mode: debug release test)") := by
  rw [setupRouter_eq, if_pos hmode]

/-- Closed form of `getConfig`. -/
theorem getConfig_eq (w : World) (configFile : String) :
    getConfig w configFile =
      if configFile = "" then .done [] (.error "[ERROR] config file not specified")
      else if pathExt configFile = ".yml" ∨ pathExt configFile = ".yaml" then
        .done [.retrieveConfig configFile] (RetrieveConfig w configFile)
      else .done [] (.error "[ERROR] config file only support .yml or .yaml format") := by
  by_cases he : configFile = "" <;>
  by_cases hx : pathExt configFile = ".yml" ∨ pathExt configFile = ".yaml" <;>
  simp [getConfig, he, hx, bind, Proc.bind, pure, emit]

/-- Form of `runApp` once `getConfig` has returned a configuration. -/
theorem runApp_of_config (w : World) (configFile : String) (log : List Event) (config : Config)
    (h : getConfig w configFile = .done log (.ok config)) :
    runApp w configFile =
      match setupRouter w config with
      | .done log2 router =>
        .done (log ++ [.initKeywordMap] ++ log2 ++
            [.newServer (":" ++ toString config.appConfig.port),
             .listenAndServe (":" ++ toString config.appConfig.port)])
          (.serving ⟨":" ++ toString config.appConfig.port, router⟩)
      | .fatal log2 msg => .fatal (log ++ [.initKeywordMap] ++ log2) msg := by
  unfold runApp
  simp only [bind, Proc.bind, h, emit, pure]
  cases setupRouter w config <;> simp

/-- Form of `runApp` once `getConfig` has returned an error. -/
theorem runApp_of_error (w : World) (configFile : String) (log : List Event) (err : String)
    (h : getConfig w configFile = .done log (.error err)) :
    runApp w configFile = .done log (.returned err) := by
  unfold runApp
  simp [bind, Proc.bind, h, pure]

/-- The only event `getConfig` can record is the call of the file provider. -/
theorem getConfig_log (w : World) (configFile : String) (log : List Event)
    (r : Except String Config) (h : getConfig w configFile = .done log r) :
    ∀ e ∈ log, e = Event.retrieveConfig configFile := by
  rw [getConfig_eq] at h
  split at h
  · cases h; simp
  · split at h <;> cases h <;> simp

/-! ## The configuration loader -/

/-- C1 (not met by the code): when the koanf load step fails for a `.yml` or
`.yaml` path, `RetrieveConfig` drops that error and returns whatever
unmarshalling the still empty store gives; where that succeeds, `getConfig`
returns a settings value and a nil error instead of failing. -/
theorem RetrieveConfig_discards_load_error (w : World) (filePath absolutePath err : String)
    (config : Config) (hpath : filePath ≠ "")
    (hext : pathExt filePath = ".yml" ∨ pathExt filePath = ".yaml")
    (habs : w.abs filePath = .ok absolutePath) (hload : w.load absolutePath = .error err)
    (hun : w.unmarshal koanfNew = .ok config) :
    RetrieveConfig w filePath = .ok config ∧
    getConfig w filePath = .done [.retrieveConfig filePath] (.ok config) := by
  have hr : RetrieveConfig w filePath = .ok config := by
    simp [RetrieveConfig, hpath, habs, hload, koanfLoad, hun]
  refine ⟨hr, ?_⟩
  rw [getConfig_eq, if_neg hpath, if_pos hext, hr]

/-- The missing file `missing.yml`: the load step fails, yet `getConfig` hands
back the zero-valued settings with no error. -/
theorem RetrieveConfig_discards_load_error_witness :
    (sampleWorld []).load "/srv/missing.yml" =
        .error "open /srv/missing.yml: no such file or directory" ∧
    RetrieveConfig (sampleWorld []) "missing.yml" = .ok Config.zero ∧
    getConfig (sampleWorld []) "missing.yml" =
        .done [.retrieveConfig "missing.yml"] (.ok Config.zero) :=
  ⟨rfl,
   RetrieveConfig_discards_load_error (sampleWorld []) "missing.yml" "/srv/missing.yml"
     "open /srv/missing.yml: no such file or directory" Config.zero
     (by decide) (by decide) rfl rfl rfl⟩

/-- C2: `getConfig` returns an error without calling the file provider exactly
when the path is empty or its extension is neither `.yml` nor `.yaml` (compared
as written, so `.YML` is refused); the empty path gives the "not specified"
error, another refused path the "only support" error; in every other case the
provider is called once and its result is returned unchanged. -/
theorem getConfig_contract (w : World) (configFile : String) :
    ((∃ log err, getConfig w configFile = .done log (.error err) ∧
        ∀ p, Event.retrieveConfig p ∉ log) ↔
      (configFile = "" ∨ (pathExt configFile ≠ ".yml" ∧ pathExt configFile ≠ ".yaml"))) ∧
    (configFile = "" →
      getConfig w configFile = .done [] (.error "[ERROR] config file not specified")) ∧
    (configFile ≠ "" → pathExt configFile ≠ ".yml" → pathExt configFile ≠ ".yaml" →
      getConfig w configFile =
        .done [] (.error "[ERROR] config file only support .yml or .yaml format")) ∧
    (configFile ≠ "" → (pathExt configFile = ".yml" ∨ pathExt configFile = ".yaml") →
      getConfig w configFile =
        .done [.retrieveConfig configFile] (RetrieveConfig w configFile)) ∧
    getConfig w "conf/app.YML" =
      .done [] (.error "[ERROR] config file only support .yml or .yaml format") := by
  refine ⟨?_, ?_, ?_, ?_, ?_⟩
  · constructor
    · rintro ⟨log, err, h, hno⟩
      by_contra hcon
      push_neg at hcon
      obtain ⟨hne, hext⟩ := hcon
      have hext2 : pathExt configFile = ".yml" ∨ pathExt configFile = ".yaml" := by
        by_cases h1 : pathExt configFile = ".yml"
        · exact Or.inl h1
        · exact Or.inr (hext h1)
      rw [getConfig_eq, if_neg hne, if_pos hext2] at h
      injection h with hlog _
      exact hno configFile (by simp [← hlog])
    · intro h
      rcases h with h | ⟨h1, h2⟩
      · exact ⟨[], _, by rw [getConfig_eq, if_pos h], by simp⟩
      · by_cases he : configFile = ""
        · exact ⟨[], _, by rw [getConfig_eq, if_pos he], by simp⟩
        · refine ⟨[], "[ERROR] config file only support .yml or .yaml format", ?_, by simp⟩
          rw [getConfig_eq, if_neg he, if_neg (by simp [h1, h2])]
  · intro h
    rw [getConfig_eq, if_pos h]
  · intro he h1 h2
    rw [getConfig_eq, if_neg he, if_neg (by simp [h1, h2])]
  · intro he hx
    rw [getConfig_eq, if_neg he, if_pos hx]
  · rw [getConfig_eq, if_neg (by decide), if_neg (by decide)]

/-- C6: when `getConfig` returns an error, `runApp` returns that same error and
its log is the log of `getConfig`, which holds nothing but the call of the file
provider: no keyword map, no client, no controller, no server, no listener. -/
theorem runApp_returns_config_error (w : World) (configFile : String) (log : List Event)
    (err : String) (h : getConfig w configFile = .done log (.error err)) :
    runApp w configFile = .done log (.returned err) ∧
    ∀ e ∈ log, e = Event.retrieveConfig configFile :=
  ⟨runApp_of_error w configFile log err h, getConfig_log w configFile log _ h⟩

/-- A JSON file is refused by `getConfig`, and `runApp` returns that error at once. -/
theorem runApp_returns_config_error_witness :
    getConfig (sampleWorld []) "config.json" =
        .done [] (.error "[ERROR] config file only support .yml or .yaml format") ∧
    runApp (sampleWorld []) "config.json" =
        .done [] (.returned "[ERROR] config file only support .yml or .yaml format") ∧
    ∀ e ∈ ([] : List Event), e = Event.retrieveConfig "config.json" :=
  ⟨rfl,
   runApp_returns_config_error (sampleWorld []) "config.json" []
     "[ERROR] config file only support .yml or .yaml format" rfl⟩

/-! ## The backend clients -/

/-- C3 as stated fails: with `OPENAI_API_KEY` unset, a rejected
`OPENAI_BASE_DOMAIN` is never looked at; `setupRouter` completes and `runApp`
goes on to create the server and start the listener. -/
theorem baseDomain_ignored_without_key :
    (sampleWorld [("OPENAI_BASE_DOMAIN", "nowhere")]).getenv "OPENAI_BASE_DOMAIN" = "nowhere" ∧
    (sampleWorld [("OPENAI_BASE_DOMAIN", "nowhere")]).validateAddress "nowhere" = false ∧
    runApp (sampleWorld [("OPENAI_BASE_DOMAIN", "nowhere")]) "config.yml" =
      .done
        [.retrieveConfig "config.yml", .initKeywordMap,
         .newMessageController sampleConfig.wechatConfig none none,
         .newServer ":8080", .listenAndServe ":8080"]
        (.serving ⟨":8080", "release", some "templates/*.html",
          routeTable ⟨sampleConfig.wechatConfig, none, none⟩⟩) := by
  decide

/-- C3, amended: once the configuration is loaded, if `OPENAI_API_KEY` is
non-empty and `OPENAI_BASE_DOMAIN` is non-empty and rejected by the address
check, the process is ended inside `setupRouter`, whatever the other variables
hold: with the base-domain message when gin knows the configured mode, and in
every case with nothing recorded by `setupRouter`.  The log of `runApp` then
stops after the keyword map and holds neither the creation of the server nor
the start of the listener. -/
theorem runApp_fatal_on_rejected_baseDomain (w : World) (configFile : String)
    (log : List Event) (config : Config)
    (hcfg : getConfig w configFile = .done log (.ok config))
    (hkey : w.getenv "OPENAI_API_KEY" ≠ "")
    (hdom : w.getenv "OPENAI_BASE_DOMAIN" ≠ "")
    (hrej : w.validateAddress (w.getenv "OPENAI_BASE_DOMAIN") = false) :
    (ginModeKnown config.appConfig.mode = true →
      setupRouter w config =
        .fatal [] ("OPENAI_BASE_DOMAIN is not valid:" ++ w.getenv "OPENAI_BASE_DOMAIN") ∧
      runApp w configFile =
        .fatal (log ++ [.initKeywordMap])
          ("OPENAI_BASE_DOMAIN is not valid:" ++ w.getenv "OPENAI_BASE_DOMAIN")) ∧
    (∃ msg, setupRouter w config = .fatal [] msg ∧
      runApp w configFile = .fatal (log ++ [.initKeywordMap]) msg) ∧
    ∀ addr, Event.newServer addr ∉ (runApp w configFile).log ∧
      Event.listenAndServe addr ∉ (runApp w configFile).log := by
  have hrun : ∀ msg, setupRouter w config = .fatal [] msg →
      runApp w configFile = .fatal (log ++ [.initKeywordMap]) msg := by
    intro msg hs
    rw [runApp_of_config w configFile log config hcfg, hs]
    simp
  have hknown : ginModeKnown config.appConfig.mode = true →
      setupRouter w config =
        .fatal [] ("OPENAI_BASE_DOMAIN is not valid:" ++ w.getenv "OPENAI_BASE_DOMAIN") := by
    intro hm
    rw [setupRouter_of_mode w config hm, if_pos ⟨hkey, hdom, hrej⟩]
  have hex : ∃ msg, setupRouter w config = .fatal [] msg := by
    cases hm : ginModeKnown config.appConfig.mode with
    | true => exact ⟨_, hknown hm⟩
    | false => exact ⟨_, setupRouter_unknown_mode w config hm⟩
  obtain ⟨msg, hs⟩ := hex
  refine ⟨fun hm => ⟨hknown hm, hrun _ (hknown hm)⟩, ⟨msg, hs, hrun msg hs⟩, ?_⟩
  intro addr
  have hlog := getConfig_log w configFile log _ hcfg
  rw [hrun msg hs]
  simp only [Proc.log, List.mem_append, List.mem_singleton, reduceCtorEq, or_false]
  constructor <;> intro hmem <;> have := hlog _ hmem <;> cases this

/-- With an API key and the base domain `nowhere`, startup ends in `setupRouter`. -/
theorem runApp_fatal_on_rejected_baseDomain_witness :
    runApp (sampleWorld [("OPENAI_API_KEY", "sk-test"), ("OPENAI_BASE_DOMAIN", "nowhere")])
        "config.yml" =
      .fatal [.retrieveConfig "config.yml", .initKeywordMap]
        "OPENAI_BASE_DOMAIN is not valid:nowhere" :=
  ((runApp_fatal_on_rejected_baseDomain
    (sampleWorld [("OPENAI_API_KEY", "sk-test"), ("OPENAI_BASE_DOMAIN", "nowhere")])
    "config.yml" [.retrieveConfig "config.yml"] sampleConfig rfl (by decide) (by decide)
    (by decide)).1 (by decide)).2

/-- C4: with `OPENAI_API_KEY` empty, whatever `OPENAI_BASE_DOMAIN`,
`OPENAI_PROXY` and `TULING_API_KEY` hold and for every configuration,
`setupRouter` never calls `chatgpt.NewChatGPT` and hands no LLM backend other
than nil to `NewMessageController`; and whenever gin knows the configured mode
(the call of `gin.SetMode` comes before any variable is read), `setupRouter`
is not ended: it completes and does hand a nil LLM backend to
`NewMessageController`. -/
theorem setupRouter_without_openai_key (w : World) (config : Config)
    (hkey : w.getenv "OPENAI_API_KEY" = "") :
    (∀ k d p, Event.newChatGPT k d p ∉ (setupRouter w config).log) ∧
    (∀ wc llm tl,
      Event.newMessageController wc llm tl ∈ (setupRouter w config).log → llm = none) ∧
    (ginModeKnown config.appConfig.mode = true →
      ∃ log router tl, setupRouter w config = .done log router ∧
        Event.newMessageController config.wechatConfig none tl ∈ log) := by
  cases hm : ginModeKnown config.appConfig.mode with
  | false =>
    rw [setupRouter_unknown_mode w config hm]
    simp [Proc.log]
  | true =>
    have hs := setupRouter_of_mode w config hm
    rw [if_neg (by simp [hkey]), if_neg (by simp [hkey])] at hs
    rw [hs]
    refine ⟨?_, ?_, fun _ => ⟨_, _, tulingOf w, rfl, by simp [setupLog, llmOf, hkey]⟩⟩
    · intro k d p
      by_cases ht : w.getenv "TULING_API_KEY" = "" <;> simp [Proc.log, setupLog, hkey, ht]
    · intro wc llm tl
      by_cases ht : w.getenv "TULING_API_KEY" = "" <;>
        simp [Proc.log, setupLog, llmOf, hkey, ht] <;> intro _ h _ <;> exact h

/-- No API key, rejected base domain and proxy, a Tuling key, mode `release`:
`setupRouter` completes and the controller receives no LLM client. -/
theorem setupRouter_without_openai_key_witness :
    ginModeKnown sampleConfig.appConfig.mode = true ∧
    ∃ log router tl,
      setupRouter
        (sampleWorld [("OPENAI_BASE_DOMAIN", "nowhere"), ("OPENAI_PROXY", "nowhere"),
          ("TULING_API_KEY", "tk")]) sampleConfig = .done log router ∧
      Event.newMessageController sampleConfig.wechatConfig none tl ∈ log :=
  ⟨by decide,
   (setupRouter_without_openai_key
    (sampleWorld [("OPENAI_BASE_DOMAIN", "nowhere"), ("OPENAI_PROXY", "nowhere"),
      ("TULING_API_KEY", "tk")]) sampleConfig (by decide)).2.2 (by decide)⟩

/-- C5: with `OPENAI_API_KEY` non-empty and a configured mode that gin knows,
`setupRouter` calls `chatgpt.NewChatGPT` with the triple (key, base domain,
proxy) exactly when each of `OPENAI_BASE_DOMAIN` and `OPENAI_PROXY` is empty or
accepted by the address check; it then completes and the client reaches the
controller.  For every configuration, a call of `chatgpt.NewChatGPT` has that
triple as arguments and happens only with both addresses empty or accepted, and
if either address is non-empty and rejected the process is ended with an empty
log: no LLM client, no rule-based client, no controller. -/
theorem setupRouter_with_openai_key (w : World) (config : Config)
    (hkey : w.getenv "OPENAI_API_KEY" ≠ "") :
    (ginModeKnown config.appConfig.mode = true →
      (Event.newChatGPT (w.getenv "OPENAI_API_KEY") (w.getenv "OPENAI_BASE_DOMAIN")
          (w.getenv "OPENAI_PROXY") ∈ (setupRouter w config).log ↔
        ((w.getenv "OPENAI_BASE_DOMAIN" = "" ∨
            w.validateAddress (w.getenv "OPENAI_BASE_DOMAIN") = true) ∧
          (w.getenv "OPENAI_PROXY" = "" ∨
            w.validateAddress (w.getenv "OPENAI_PROXY") = true)))) ∧
    (ginModeKnown config.appConfig.mode = true →
      ((w.getenv "OPENAI_BASE_DOMAIN" = "" ∨
          w.validateAddress (w.getenv "OPENAI_BASE_DOMAIN") = true) ∧
        (w.getenv "OPENAI_PROXY" = "" ∨
          w.validateAddress (w.getenv "OPENAI_PROXY") = true)) →
      ∃ log router tl, setupRouter w config = .done log router ∧
        Event.newMessageController config.wechatConfig
          (some ⟨w.getenv "OPENAI_API_KEY", w.getenv "OPENAI_BASE_DOMAIN",
            w.getenv "OPENAI_PROXY"⟩) tl ∈ log) ∧
    (∀ k d p, Event.newChatGPT k d p ∈ (setupRouter w config).log →
      (k = w.getenv "OPENAI_API_KEY" ∧ d = w.getenv "OPENAI_BASE_DOMAIN" ∧
        p = w.getenv "OPENAI_PROXY") ∧
      (w.getenv "OPENAI_BASE_DOMAIN" = "" ∨
        w.validateAddress (w.getenv "OPENAI_BASE_DOMAIN") = true) ∧
      (w.getenv "OPENAI_PROXY" = "" ∨
        w.validateAddress (w.getenv "OPENAI_PROXY") = true)) ∧
    (((w.getenv "OPENAI_BASE_DOMAIN" ≠ "" ∧
          w.validateAddress (w.getenv "OPENAI_BASE_DOMAIN") = false) ∨
        (w.getenv "OPENAI_PROXY" ≠ "" ∧
          w.validateAddress (w.getenv "OPENAI_PROXY") = false)) →
      ∃ msg, setupRouter w config = .fatal [] msg) := by
  have hbiff : ¬ rejected w "OPENAI_BASE_DOMAIN" ↔
      (w.getenv "OPENAI_BASE_DOMAIN" = "" ∨
        w.validateAddress (w.getenv "OPENAI_BASE_DOMAIN") = true) := by
    unfold rejected
    by_cases h1 : w.getenv "OPENAI_BASE_DOMAIN" = "" <;> simp [h1]
  have hpiff : ¬ rejected w "OPENAI_PROXY" ↔
      (w.getenv "OPENAI_PROXY" = "" ∨
        w.validateAddress (w.getenv "OPENAI_PROXY") = true) := by
    unfold rejected
    by_cases h1 : w.getenv "OPENAI_PROXY" = "" <;> simp [h1]
  cases hm : ginModeKnown config.appConfig.mode with
  | false =>
    have hs := setupRouter_unknown_mode w config hm
    refine ⟨?_, ?_, ?_, ?_⟩
    · intro h; cases h
    · intro h; cases h
    · rw [hs]
      simp [Proc.log]
    · intro _
      exact ⟨_, hs⟩
  | true =>
    have hs := setupRouter_of_mode w config hm
    by_cases hb : rejected w "OPENAI_BASE_DOMAIN"
    · rw [if_pos ⟨hkey, hb⟩] at hs
      have hnb := fun h => (hbiff.2 h) hb
      refine ⟨fun _ => ?_, fun _ h => absurd h.1 hnb, ?_, fun _ => ⟨_, hs⟩⟩
      · rw [hs]
        constructor
        · intro h; simp [Proc.log] at h
        · intro h; exact absurd h.1 hnb
      · rw [hs]
        simp [Proc.log]
    · by_cases hp : rejected w "OPENAI_PROXY"
      · rw [if_neg (fun h => hb h.2), if_pos ⟨hkey, hp⟩] at hs
        have hnp := fun h => (hpiff.2 h) hp
        refine ⟨fun _ => ?_, fun _ h => absurd h.2 hnp, ?_, fun _ => ⟨_, hs⟩⟩
        · rw [hs]
          constructor
          · intro h; simp [Proc.log] at h
          · intro h; exact absurd h.2 hnp
        · rw [hs]
          simp [Proc.log]
      · rw [if_neg (fun h => hb h.2), if_neg (fun h => hp h.2)] at hs
        have hbok := hbiff.1 hb
        have hpok := hpiff.1 hp
        refine ⟨fun _ => ?_, fun _ _ => ⟨_, _, tulingOf w, hs, ?_⟩, ?_, ?_⟩
        · rw [hs]
          simp [Proc.log, setupLog, hkey, hbok, hpok]
        · simp [setupLog, llmOf, hkey]
        · rw [hs]
          intro k d p
          by_cases ht : w.getenv "TULING_API_KEY" = "" <;>
            simp [Proc.log, setupLog, hkey, ht, hbok, hpok]
        · intro h
          rcases h with h | h
          · exact absurd h hb
          · exact absurd h hp

/-- A key, an accepted base domain, no proxy, mode `release`: the client is
built with that triple. -/
theorem setupRouter_with_openai_key_witness :
    ginModeKnown sampleConfig.appConfig.mode = true ∧
    Event.newChatGPT "sk-test" "api.example.com:443" "" ∈
      (setupRouter
        (sampleWorld [("OPENAI_API_KEY", "sk-test"),
          ("OPENAI_BASE_DOMAIN", "api.example.com:443")]) sampleConfig).log :=
  ⟨by decide,
   ((setupRouter_with_openai_key
    (sampleWorld [("OPENAI_API_KEY", "sk-test"), ("OPENAI_BASE_DOMAIN", "api.example.com:443")])
    sampleConfig (by decide)).1 (by decide)).2 ⟨Or.inr (by decide), Or.inl (by decide)⟩⟩

/-- C7: in every environment in which the OpenAI address check does not end
`setupRouter` (no `OPENAI_API_KEY`, or each of `OPENAI_BASE_DOMAIN` and
`OPENAI_PROXY` empty or accepted), and with a configured mode that gin knows,
`setupRouter` completes and the rule-based client handed to
`NewMessageController` is built from `TULING_API_KEY` when that variable is
non-empty and is nil when it is empty, whatever `OPENAI_API_KEY` holds.  With
both keys empty the one thing built is a controller with both backends nil. -/
theorem setupRouter_tuling (w : World) (config : Config)
    (hmode : ginModeKnown config.appConfig.mode = true)
    (henv : w.getenv "OPENAI_API_KEY" = "" ∨
      ((w.getenv "OPENAI_BASE_DOMAIN" = "" ∨
          w.validateAddress (w.getenv "OPENAI_BASE_DOMAIN") = true) ∧
        (w.getenv "OPENAI_PROXY" = "" ∨
          w.validateAddress (w.getenv "OPENAI_PROXY") = true))) :
    ∃ log router llm, setupRouter w config = .done log router ∧
      (w.getenv "TULING_API_KEY" ≠ "" →
        Event.newTuling (w.getenv "TULING_API_KEY") ∈ log ∧
        Event.newMessageController config.wechatConfig llm
          (some ⟨w.getenv "TULING_API_KEY"⟩) ∈ log) ∧
      (w.getenv "TULING_API_KEY" = "" →
        (∀ k, Event.newTuling k ∉ log) ∧
        Event.newMessageController config.wechatConfig llm none ∈ log) ∧
      (∀ k, Event.newTuling k ∈ log → k = w.getenv "TULING_API_KEY") ∧
      (∀ wc l tl, Event.newMessageController wc l tl ∈ log →
        tl = if w.getenv "TULING_API_KEY" = "" then none
             else some ⟨w.getenv "TULING_API_KEY"⟩) ∧
      (w.getenv "OPENAI_API_KEY" = "" → w.getenv "TULING_API_KEY" = "" →
        log = [.newMessageController config.wechatConfig none none]) := by
  have hnb : ¬ (w.getenv "OPENAI_API_KEY" ≠ "" ∧ rejected w "OPENAI_BASE_DOMAIN") := by
    rintro ⟨hk, h1, h2⟩
    rcases henv with h | ⟨h | h, _⟩
    · exact hk h
    · exact h1 h
    · rw [h2] at h; cases h
  have hnp : ¬ (w.getenv "OPENAI_API_KEY" ≠ "" ∧ rejected w "OPENAI_PROXY") := by
    rintro ⟨hk, h1, h2⟩
    rcases henv with h | ⟨_, h | h⟩
    · exact hk h
    · exact h1 h
    · rw [h2] at h; cases h
  have hs := setupRouter_of_mode w config hmode
  rw [if_neg hnb, if_neg hnp] at hs
  refine ⟨_, _, llmOf w, hs, ?_, ?_, ?_, ?_, ?_⟩
  · intro ht
    by_cases hk : w.getenv "OPENAI_API_KEY" = "" <;>
      simp [setupLog, tulingOf, hk, ht]
  · intro ht
    by_cases hk : w.getenv "OPENAI_API_KEY" = "" <;>
      simp [setupLog, tulingOf, hk, ht]
  · intro k
    by_cases hk : w.getenv "OPENAI_API_KEY" = "" <;>
    by_cases ht : w.getenv "TULING_API_KEY" = "" <;>
      simp [setupLog, tulingOf, hk, ht]
  · intro wc l tl
    by_cases hk : w.getenv "OPENAI_API_KEY" = "" <;>
    by_cases ht : w.getenv "TULING_API_KEY" = "" <;>
      simp [setupLog, tulingOf, hk, ht]
  · intro hk ht
    simp [setupLog, llmOf, tulingOf, hk, ht]

/-- An OpenAI key with an accepted base domain, and a Tuling key: the
controller receives the Tuling client built from that key. -/
theorem setupRouter_tuling_witness :
    ∃ log router llm,
      setupRouter
        (sampleWorld [("OPENAI_API_KEY", "sk-test"),
          ("OPENAI_BASE_DOMAIN", "api.example.com:443"), ("TULING_API_KEY", "tk")])
        sampleConfig = .done log router ∧
      Event.newTuling "tk" ∈ log ∧
      Event.newMessageController sampleConfig.wechatConfig llm (some ⟨"tk"⟩) ∈ log :=
  match setupRouter_tuling
    (sampleWorld [("OPENAI_API_KEY", "sk-test"),
      ("OPENAI_BASE_DOMAIN", "api.example.com:443"), ("TULING_API_KEY", "tk")])
    sampleConfig (by decide) (Or.inr ⟨Or.inr (by decide), Or.inl (by decide)⟩) with
  | ⟨log, router, llm, hs, h1, _⟩ => ⟨log, router, llm, hs, h1 (by decide)⟩

/-! ## The route table -/

/-- C9: whenever `setupRouter` completes, its route table serves static files
below `/public`, binds GET `/` to the landing handler, and binds GET and POST
`/weChat/receiveMessage` to the `ReceiveMessage` method of the one controller it
built; methods and paths are the same fixed list for every environment and
configuration. -/
theorem setupRouter_routes (w : World) (config : Config) (log : List Event) (router : Engine)
    (h : setupRouter w config = .done log router) :
    (∃ ws : MessageController,
      Event.newMessageController ws.wechatConfig ws.chatGPT ws.tuling ∈ log ∧
      router.routes =
        [⟨"GET", "/public/*filepath", .staticFS "/public"⟩,
         ⟨"HEAD", "/public/*filepath", .staticFS "/public"⟩,
         ⟨"GET", "/", .indexHandler⟩,
         ⟨"GET", "/weChat/receiveMessage", .receiveMessage ws⟩,
         ⟨"POST", "/weChat/receiveMessage", .receiveMessage ws⟩]) ∧
    router.routes.map (fun r => (r.method, r.path)) =
      [("GET", "/public/*filepath"), ("HEAD", "/public/*filepath"), ("GET", "/"),
       ("GET", "/weChat/receiveMessage"), ("POST", "/weChat/receiveMessage")] := by
  have hs := setupRouter_eq w config
  rw [h] at hs
  split at hs
  · cases hs
  · split at hs
    · cases hs
    · split at hs
      · cases hs
      · injection hs with hlog hrouter
        subst hlog hrouter
        refine ⟨⟨⟨config.wechatConfig, llmOf w, tulingOf w⟩, ?_, rfl⟩, rfl⟩
        simp [setupLog]

/-- The route table of the sample configuration under an empty environment. -/
theorem setupRouter_routes_witness :
    setupRouter (sampleWorld []) sampleConfig =
      .done [.newMessageController sampleConfig.wechatConfig none none]
        ⟨"release", some "templates/*.html",
          routeTable ⟨sampleConfig.wechatConfig, none, none⟩⟩ ∧
    (routeTable ⟨sampleConfig.wechatConfig, none, none⟩).map (fun r => (r.method, r.path)) =
      [("GET", "/public/*filepath"), ("HEAD", "/public/*filepath"), ("GET", "/"),
       ("GET", "/weChat/receiveMessage"), ("POST", "/weChat/receiveMessage")] :=
  ⟨by decide,
   (setupRouter_routes (sampleWorld []) sampleConfig
    [.newMessageController sampleConfig.wechatConfig none none]
    ⟨"release", some "templates/*.html", routeTable ⟨sampleConfig.wechatConfig, none, none⟩⟩
    (by decide)).2⟩

/-! ## The fatal message for a rejected proxy -/

/-- C10 (not met by the code): with a configured mode that gin knows, a key, a
base domain that is empty or accepted, and a non-empty rejected `OPENAI_PROXY`,
the fatal message is "OPENAI_PROXY is not valid:" followed by the value of
`OPENAI_BASE_DOMAIN`, not by the rejected proxy value. -/
theorem setupRouter_proxy_message (w : World) (config : Config)
    (hmode : ginModeKnown config.appConfig.mode = true)
    (hkey : w.getenv "OPENAI_API_KEY" ≠ "")
    (hdom : w.getenv "OPENAI_BASE_DOMAIN" = "" ∨
      w.validateAddress (w.getenv "OPENAI_BASE_DOMAIN") = true)
    (hproxy : w.getenv "OPENAI_PROXY" ≠ "")
    (hrej : w.validateAddress (w.getenv "OPENAI_PROXY") = false) :
    setupRouter w config =
      .fatal [] ("OPENAI_PROXY is not valid:" ++ w.getenv "OPENAI_BASE_DOMAIN") := by
  have hb : ¬ rejected w "OPENAI_BASE_DOMAIN" := by
    rintro ⟨h1, h2⟩
    rcases hdom with h | h
    · exact h1 h
    · rw [h2] at h; cases h
  rw [setupRouter_of_mode w config hmode, if_neg (fun h => hb h.2),
    if_pos ⟨hkey, hproxy, hrej⟩]

/-- With no base domain and the proxy `nowhere`, the message names no value at all. -/
theorem setupRouter_proxy_message_witness :
    setupRouter (sampleWorld [("OPENAI_API_KEY", "sk-test"), ("OPENAI_PROXY", "nowhere")])
        sampleConfig = .fatal [] "OPENAI_PROXY is not valid:" ∧
    "OPENAI_PROXY is not valid:" ≠ "OPENAI_PROXY is not valid:" ++ "nowhere" :=
  ⟨setupRouter_proxy_message
    (sampleWorld [("OPENAI_API_KEY", "sk-test"), ("OPENAI_PROXY", "nowhere")]) sampleConfig
    (by decide) (by decide) (Or.inl (by decide)) (by decide) (by decide), by decide⟩

/-! ## The listen address -/

/-- A decimal digit character reads back as its digit. -/
theorem digitChar_value : ∀ k : Fin 10, (Nat.digitChar k.val).toNat - '0'.toNat = k.val := by
  decide

/-- A decimal digit character is a digit. -/
theorem digitChar_isDigit : ∀ k : Fin 10, (Nat.digitChar k.val).isDigit = true := by
  decide

/-- The digit loop only produces digit characters. -/
theorem toDigitsCore_all (fuel : Nat) : ∀ (n : Nat) (ds : List Char),
    ds.all Char.isDigit = true → (Nat.toDigitsCore 10 fuel n ds).all Char.isDigit = true := by
  induction fuel with
  | zero => intro n ds h; simpa [Nat.toDigitsCore] using h
  | succ fuel ih =>
    intro n ds h
    have hd : (Nat.digitChar (n % 10)).isDigit = true :=
      digitChar_isDigit ⟨n % 10, Nat.mod_lt _ (by decide)⟩
    have hcons : (Nat.digitChar (n % 10) :: ds).all Char.isDigit = true := by
      simp only [List.all_cons, hd, h, Bool.and_self]
    simp only [Nat.toDigitsCore]
    split
    · exact hcons
    · exact ih _ _ hcons

/-- The digit loop produces at least one character. -/
theorem toDigitsCore_ne_nil (fuel : Nat) : ∀ (n : Nat) (ds : List Char),
    ds ≠ [] ∨ 0 < fuel → Nat.toDigitsCore 10 fuel n ds ≠ [] := by
  induction fuel with
  | zero =>
    intro n ds h
    rcases h with h | h
    · simpa [Nat.toDigitsCore] using h
    · omega
  | succ fuel ih =>
    intro n ds _
    simp only [Nat.toDigitsCore]
    split
    · simp
    · exact ih _ _ (Or.inl (by simp))

/-- Reading the output of the digit loop continues the read of its accumulator from `n`. -/
theorem toDigitsCore_foldl (fuel : Nat) : ∀ (n : Nat) (ds : List Char), n < fuel →
    (Nat.toDigitsCore 10 fuel n ds).foldl digitStep 0 = ds.foldl digitStep n := by
  induction fuel with
  | zero => intro n ds h; omega
  | succ fuel ih =>
    intro n ds h
    have hd : (Nat.digitChar (n % 10)).toNat - '0'.toNat = n % 10 :=
      digitChar_value ⟨n % 10, Nat.mod_lt _ (by decide)⟩
    simp only [Nat.toDigitsCore]
    split
    · next h0 =>
      have hn : n % 10 = n := by omega
      simp only [List.foldl_cons, digitStep, hd, Nat.zero_mul, Nat.zero_add]
      rw [hn]
    · next h0 =>
      have hlt : n / 10 < fuel := by omega
      rw [ih _ _ hlt]
      have hn : n / 10 * 10 + n % 10 = n := by omega
      simp only [List.foldl_cons, digitStep, hd]
      rw [hn]

/-- Parsing the decimal text of a natural number gives the number back. -/
theorem toNat?_toString (n : Nat) : (toString n).toNat? = some n := by
  have hne : Nat.toDigits 10 n ≠ [] := toDigitsCore_ne_nil _ _ _ (Or.inr (Nat.succ_pos n))
  have hall : (Nat.toDigits 10 n).all Char.isDigit = true := toDigitsCore_all _ _ _ rfl
  have hval : (Nat.toDigits 10 n).foldl digitStep 0 = n := by
    have := toDigitsCore_foldl (n + 1) n [] (Nat.lt_succ_self n)
    simpa [Nat.toDigits] using this
  have hrepr : toString n = ⟨Nat.toDigits 10 n⟩ := rfl
  have hempty : (toString n).isEmpty = false := by
    rw [Bool.eq_false_iff, Ne, String.isEmpty_iff, hrepr]
    intro h
    exact hne (congrArg String.data h)
  have hnat : (toString n).isNat = true := by
    unfold String.isNat
    rw [hempty, String.all_eq, hrepr]
    simpa using hall
  unfold String.toNat?
  rw [if_pos hnat, String.foldl_eq, hrepr]
  exact congrArg some hval

/-- Dropping the leading colon of an address leaves the port text. -/
theorem drop_colon (s : String) : (":" ++ s).drop 1 = s := by
  rw [String.drop_eq]
  rfl

/-- C8: once the configuration is loaded and `setupRouter` has completed,
`runApp` creates the server, and starts the listener, on the address made of a
colon followed by the decimal text of the configured port, with no host part;
for a port that is a natural number, so for each of 0..65535, reading the text
after the colon as a decimal number gives the port back. -/
theorem runApp_listen_addr (w : World) (configFile : String) (log : List Event)
    (config : Config) (hcfg : getConfig w configFile = .done log (.ok config))
    (hsetup : ∀ l msg, setupRouter w config ≠ .fatal l msg) :
    (∃ log2 router,
      runApp w configFile =
        .done log2 (.serving ⟨":" ++ toString config.appConfig.port, router⟩) ∧
      Event.newServer (":" ++ toString config.appConfig.port) ∈ log2 ∧
      Event.listenAndServe (":" ++ toString config.appConfig.port) ∈ log2) ∧
    ∀ p : Nat, config.appConfig.port = (p : Int) →
      ((":" ++ toString config.appConfig.port).drop 1).toNat? = some p := by
  constructor
  · have hr := runApp_of_config w configFile log config hcfg
    cases hs : setupRouter w config with
    | fatal l msg => exact absurd hs (hsetup l msg)
    | done log2 router =>
      rw [hs] at hr
      exact ⟨_, router, hr, by simp, by simp⟩
  · intro p hp
    rw [drop_colon, hp]
    exact toNat?_toString p

/-- The sample configuration listens on `:8080`, which reads back as 8080. -/
theorem runApp_listen_addr_witness :
    (∃ log2 router,
      runApp (sampleWorld []) "config.yml" = .done log2 (.serving ⟨":8080", router⟩) ∧
      Event.newServer ":8080" ∈ log2 ∧ Event.listenAndServe ":8080" ∈ log2) ∧
    ((":8080" : String).drop 1).toNat? = some 8080 :=
  have h := runApp_listen_addr (sampleWorld []) "config.yml" [.retrieveConfig "config.yml"]
    sampleConfig rfl (fun l msg hf => by
      rw [setupRouter_eq, if_neg (by decide), if_neg (by decide), if_neg (by decide)] at hf
      cases hf)
  ⟨h.1, h.2 8080 rfl⟩

end WeChatRobot
